import Mathlib

/-
  Verification of the ReconX scan-orchestration core against its
  natural-language specification.

  The Python sources are shallowly embedded: pure fragments become Lean
  functions, stateful fragments become explicit state passing, machine
  integers are Nat/Int, and fallible operations are modelled with explicit
  outcome parameters.  Every definition mirrors a named function of the
  repository (src/core/state_checkpoint.py, src/core/scanner_engine.py,
  src/api/tasks.py, src/api/database.py, src/api/resilience_manager.py,
  src/core/subprocess_manager.py, src/core/tool_manager.py).
-/

set_option maxRecDepth 20000

namespace ReconX

/-! ## Python JSON values and json.dumps

The checkpoint code hashes `json.dumps(data, sort_keys=True, default=str)`.
We embed the JSON-serializable Python values that appear in checkpoints and
reproduce the exact textual output of `json.dumps` with its default
separators (", " between items, ": " after keys) and sorted keys. -/

/-- A JSON-serializable Python value: None, bool, int, str, list, dict. -/
inductive PyVal where
  | pnull : PyVal
  | pbool : Bool → PyVal
  | pint : Int → PyVal
  | pstr : String → PyVal
  | plist : List PyVal → PyVal
  | pdict : List (String × PyVal) → PyVal
deriving Repr, Inhabited

/-- Lexicographic code-point comparison of char lists (Python `str <`). -/
def strLtChars : List Char → List Char → Bool
  | [], [] => false
  | [], _ :: _ => true
  | _ :: _, [] => false
  | a :: as, b :: bs =>
    if a.toNat < b.toNat then true
    else if b.toNat < a.toNat then false
    else strLtChars as bs

/-- Python string comparison, lexicographic by code point. -/
def pyStrLt (a b : String) : Bool := strLtChars a.toList b.toList

/-- Insert a key-value pair into a key-sorted association list, keeping the
ascending code-point order that Python `sorted` produces. -/
def insertKV (kv : String × PyVal) : List (String × PyVal) → List (String × PyVal)
  | [] => [kv]
  | hd :: tl => if pyStrLt kv.1 hd.1 then kv :: hd :: tl else hd :: insertKV kv tl

/-- Stable insertion sort of dict entries by key (Python `sort_keys=True`). -/
def sortKVs : List (String × PyVal) → List (String × PyVal)
  | [] => []
  | kv :: tl => insertKV kv (sortKVs tl)

mutual

/-- Recursively sort every dict inside a value by key, as
`json.dumps(..., sort_keys=True)` does while rendering. -/
def sortPy : PyVal → PyVal
  | .pnull => .pnull
  | .pbool b => .pbool b
  | .pint n => .pint n
  | .pstr s => .pstr s
  | .plist xs => .plist (sortPyList xs)
  | .pdict kvs => .pdict (sortKVs (sortPyKVs kvs))

/-- Pointwise `sortPy` over a list of values. -/
def sortPyList : List PyVal → List PyVal
  | [] => []
  | x :: xs => sortPy x :: sortPyList xs

/-- Pointwise `sortPy` over dict entries. -/
def sortPyKVs : List (String × PyVal) → List (String × PyVal)
  | [] => []
  | kv :: rest => (kv.1, sortPy kv.2) :: sortPyKVs rest

end

/-- Lower-case hex digit for a value below 16. -/
def hexDigit (n : Nat) : Char :=
  if n < 10 then Char.ofNat (48 + n) else Char.ofNat (87 + n)

/-- JSON escaping of one character, as the `json` module emits it for
ASCII input (quote, backslash, and control characters). -/
def escapeChar (c : Char) : String :=
  if c = '"' then "\\\""
  else if c = '\\' then "\\\\"
  else if c = '\n' then "\\n"
  else if c = '\t' then "\\t"
  else if c = '\r' then "\\r"
  else if c.toNat = 8 then "\\b"
  else if c.toNat = 12 then "\\f"
  else if c.toNat < 32 then
    String.mk ['\\', 'u', '0', '0', hexDigit (c.toNat / 16), hexDigit (c.toNat % 16)]
  else String.singleton c

/-- A JSON string literal: quoted and escaped. -/
def jstr (s : String) : String :=
  "\"" ++ String.join (s.toList.map escapeChar) ++ "\""

mutual

/-- Render an already key-sorted value exactly as `json.dumps` does with
its default separators. -/
def dumpsRaw : PyVal → String
  | .pnull => "null"
  | .pbool true => "true"
  | .pbool false => "false"
  | .pint n => toString n
  | .pstr s => jstr s
  | .plist xs => "[" ++ dumpsRawList xs ++ "]"
  | .pdict kvs => "\x7b" ++ dumpsRawKVs kvs ++ "\x7d"

/-- Comma-separated rendering of list elements. -/
def dumpsRawList : List PyVal → String
  | [] => ""
  | [x] => dumpsRaw x
  | x :: y :: rest => dumpsRaw x ++ ", " ++ dumpsRawList (y :: rest)

/-- Comma-separated rendering of dict entries. -/
def dumpsRawKVs : List (String × PyVal) → String
  | [] => ""
  | [kv] => jstr kv.1 ++ ": " ++ dumpsRaw kv.2
  | kv :: y :: rest => jstr kv.1 ++ ": " ++ dumpsRaw kv.2 ++ ", " ++ dumpsRawKVs (y :: rest)

end

/-- The embedding of `json.dumps(v, sort_keys=True)` with default separators. -/
def dumps (v : PyVal) : String := dumpsRaw (sortPy v)

/-- UTF-8 encoding of one code point (`str.encode()` in Python). -/
def utf8EncodeChar (c : Nat) : List Nat :=
  if c < 128 then [c]
  else if c < 2048 then [192 + c / 64, 128 + c % 64]
  else if c < 65536 then [224 + c / 4096, 128 + (c / 64) % 64, 128 + c % 64]
  else [240 + c / 262144, 128 + (c / 4096) % 64, 128 + (c / 64) % 64, 128 + c % 64]

/-- UTF-8 bytes of a string. -/
def utf8Bytes (s : String) : List Nat :=
  (s.toList.map (fun c => utf8EncodeChar c.toNat)).flatten

/-! ## SHA-256 (FIPS 180-4) on `Nat`, word width 32 bits -/

/-- Truncate to a 32-bit word. -/
def w32 (x : Nat) : Nat := x % 4294967296

/-- Rotate a 32-bit word right by `n` places. -/
def rotr32 (n x : Nat) : Nat := x / 2 ^ n + x % 2 ^ n * 2 ^ (32 - n)

/-- Bitwise complement of a 32-bit word. -/
def not32 (x : Nat) : Nat := 4294967295 - x

/-- SHA-256 choice function. -/
def ch32 (x y z : Nat) : Nat := (x &&& y) ^^^ (not32 x &&& z)

/-- SHA-256 majority function. -/
def maj32 (x y z : Nat) : Nat := (x &&& y) ^^^ (x &&& z) ^^^ (y &&& z)

/-- SHA-256 big sigma 0. -/
def bigSigma0 (x : Nat) : Nat := rotr32 2 x ^^^ rotr32 13 x ^^^ rotr32 22 x

/-- SHA-256 big sigma 1. -/
def bigSigma1 (x : Nat) : Nat := rotr32 6 x ^^^ rotr32 11 x ^^^ rotr32 25 x

/-- SHA-256 small sigma 0. -/
def smallSigma0 (x : Nat) : Nat := rotr32 7 x ^^^ rotr32 18 x ^^^ x / 2 ^ 3

/-- SHA-256 small sigma 1. -/
def smallSigma1 (x : Nat) : Nat := rotr32 17 x ^^^ rotr32 19 x ^^^ x / 2 ^ 10

/-- The 64 SHA-256 round constants of FIPS 180-4 (decimal). -/
def K256 : List Nat :=
  [1116352408, 1899447441, 3049323471, 3921009573, 961987163, 1508970993,
   2453635748, 2870763221, 3624381080, 310598401, 607225278, 1426881987,
   1925078388, 2162078206, 2614888103, 3248222580, 3835390401, 4022224774,
   264347078, 604807628, 770255983, 1249150122, 1555081692, 1996064986,
   2554220882, 2821834349, 2952996808, 3210313671, 3336571891, 3584528711,
   113926993, 338241895, 666307205, 773529912, 1294757372, 1396182291,
   1695183700, 1986661051, 2177026350, 2456956037, 2730485921, 2820302411,
   3259730800, 3345764771, 3516065817, 3600352804, 4094571909, 275423344,
   430227734, 506948616, 659060556, 883997877, 958139571, 1322822218,
   1537002063, 1747873779, 1955562222, 2024104815, 2227730452, 2361852424,
   2428436474, 2756734187, 3204031479, 3329325298]

/-- The initial SHA-256 hash state of FIPS 180-4 (decimal). -/
def H256 : List Nat :=
  [1779033703, 3144134277, 1013904242, 2773480762,
   1359893119, 2600822924, 528734635, 1541459225]

/-- Big-endian 8-byte encoding of a length in bits. -/
def be64 (n : Nat) : List Nat :=
  (List.range 8).map (fun i => n / 2 ^ (8 * (7 - i)) % 256)

/-- SHA-256 message padding: 0x80, zeros to 56 mod 64, then the bit length. -/
def sha256Pad (msg : List Nat) : List Nat :=
  let L := msg.length
  let k := (120 - (L + 1) % 64) % 64
  msg ++ [128] ++ List.replicate k 0 ++ be64 (8 * L)

/-- Group bytes into big-endian 32-bit words. -/
def bytesToWords : List Nat → List Nat
  | b0 :: b1 :: b2 :: b3 :: rest => (((b0 * 256 + b1) * 256 + b2) * 256 + b3) :: bytesToWords rest
  | _ => []

/-- Extend the message schedule by `n` words, most recent word first. -/
def extendSchedule : Nat → List Nat → List Nat
  | 0, rws => rws
  | n + 1, rws =>
    let nw := w32 (smallSigma1 (rws.getD 1 0) + rws.getD 6 0 +
                   smallSigma0 (rws.getD 14 0) + rws.getD 15 0)
    extendSchedule n (nw :: rws)

/-- The 64-word message schedule from a 16-word block. -/
def schedule (ws : List Nat) : List Nat := (extendSchedule 48 ws.reverse).reverse

/-- One SHA-256 compression round on the 8-word working state. -/
def sha256Round (st : List Nat) (kw : Nat × Nat) : List Nat :=
  match st with
  | [a, b, c, d, e, f, g, h] =>
    let t1 := w32 (h + bigSigma1 e + ch32 e f g + kw.1 + kw.2)
    let t2 := w32 (bigSigma0 a + maj32 a b c)
    [w32 (t1 + t2), a, b, c, w32 (d + t1), e, f, g]
  | other => other

/-- Compress one 16-word block into the hash state. -/
def sha256Compress (hs ws : List Nat) : List Nat :=
  let st := ((K256.zip (schedule ws)).foldl sha256Round hs)
  List.zipWith (fun x y => w32 (x + y)) hs st

/-- Fold the compression function over 64-byte blocks; the fuel bounds the
number of steps and is in practice at least the byte count, which always
suffices since every step consumes 64 bytes. -/
def sha256BlocksGo (hs : List Nat) : Nat → List Nat → List Nat
  | _, [] => hs
  | 0, _ :: _ => hs
  | fuel + 1, b :: rest =>
    sha256BlocksGo (sha256Compress hs (bytesToWords ((b :: rest).take 64))) fuel
      ((b :: rest).drop 64)

/-- Fold the compression function over all 64-byte blocks. -/
def sha256Blocks (hs : List Nat) (bytes : List Nat) : List Nat :=
  sha256BlocksGo hs bytes.length bytes

/-- SHA-256 digest of a byte list, as eight 32-bit words. -/
def sha256 (msg : List Nat) : List Nat := sha256Blocks H256 (sha256Pad msg)

/-- Fixed-width 8-digit lower-case hex of a 32-bit word. -/
def hex8 (w : Nat) : String :=
  String.mk ((List.range 8).map (fun i => hexDigit (w / 2 ^ (4 * (7 - i)) % 16)))

/-- Lower-case hex digest string (`hashlib.sha256(...).hexdigest()`). -/
def hexDigest (ws : List Nat) : String := String.join (ws.map hex8)

/-- Python string slicing `s[:n]` for ASCII strings, via the char list. -/
def strTake (s : String) (n : Nat) : String := String.mk (s.toList.take n)

/-! ## StateCheckpoint (src/core/state_checkpoint.py)

A checkpoint payload is the dict built by `save_state`; we represent the
dict as an insertion-ordered association list, exactly as Python dicts
preserve insertion order.  `json.dump`/`json.load` round-trips such a dict
value-for-value, so file and database backends both store the payload. -/

/-- First lookup of a key in a dict (Python dict access / `.get`). -/
def lookupKey (kvs : List (String × PyVal)) (k : String) : Option PyVal :=
  match kvs with
  | [] => none
  | kv :: rest => if kv.1 = k then some kv.2 else lookupKey rest k

/-- StateCheckpoint._generate_checksum: the first 16 hex digits of SHA-256
over `json.dumps(data, sort_keys=True, default=str)`. -/
def generate_checksum (data : PyVal) : String :=
  strTake (hexDigest (sha256 (utf8Bytes (dumps data)))) 16

/-- StateCheckpoint._serialize_results: values that are already of a JSON
type pass through unchanged; the `str(value)` fallback is unreachable in
this embedding because every `PyVal` is JSON-serializable. -/
def serialize_results (results : List (String × PyVal)) : List (String × PyVal) :=
  results

/-- The checkpoint dict built by StateCheckpoint.save_state (lines 35-44).
Note that the stored checksum is `_generate_checksum(results_cache)` -- it
is computed over the results cache alone, not over the whole payload. -/
def save_payload (scan_id timestamp current_module : String)
    (completed_modules pending_modules : List String)
    (module_state results_cache : List (String × PyVal)) : List (String × PyVal) :=
  [("scan_id", .pstr scan_id),
   ("timestamp", .pstr timestamp),
   ("current_module", .pstr current_module),
   ("completed_modules", .plist (completed_modules.map .pstr)),
   ("pending_modules", .plist (pending_modules.map .pstr)),
   ("module_state", .pdict module_state),
   ("results_cache", .pdict (serialize_results results_cache)),
   ("checksum", .pstr (generate_checksum (.pdict results_cache)))]

/-- StateCheckpoint._verify_checksum: a missing or empty checksum field is
rejected; otherwise the stored string must equal the checksum recomputed
over the payload with the checksum field removed. -/
def verify_checksum (state : List (String × PyVal)) : Bool :=
  match lookupKey state "checksum" with
  | some (.pstr c) =>
    if c = "" then false
    else c = generate_checksum (.pdict (state.filter (fun kv => kv.1 != "checksum")))
  | _ => false

/-- The dict returned by StateCheckpoint._deserialize_results. -/
structure ResumeState where
  can_resume : Bool
  current_module : Option PyVal
  completed_modules : PyVal
  pending_modules : PyVal
  module_state : PyVal
  results_cache : PyVal
deriving Repr

/-- StateCheckpoint._deserialize_results: repackages a verified payload,
always setting `can_resume` and applying `.get` defaults. -/
def deserialize_results (state : List (String × PyVal)) : ResumeState :=
  { can_resume := true
    current_module := lookupKey state "current_module"
    completed_modules := (lookupKey state "completed_modules").getD (.plist [])
    pending_modules := (lookupKey state "pending_modules").getD (.plist [])
    module_state := (lookupKey state "module_state").getD (.pdict [])
    results_cache := (lookupKey state "results_cache").getD (.pdict []) }

/-- The database fallback branch of StateCheckpoint.load_state. -/
def load_from_db : Option (List (String × PyVal)) → Option ResumeState
  | some st => if verify_checksum st then some (deserialize_results st) else none
  | none => none

/-- StateCheckpoint.load_state: prefer the state file; on a missing file or
a checksum mismatch fall back to the row blob; reject both on mismatch. -/
def load_state (file_state db_checkpoint : Option (List (String × PyVal))) :
    Option ResumeState :=
  match file_state with
  | some st =>
    if verify_checksum st then some (deserialize_results st) else load_from_db db_checkpoint
  | none => load_from_db db_checkpoint

/-- The two persistence backings of a checkpoint: the per-scan state file
and the `checkpoint_data` blob on the Scan row. -/
structure CheckpointBackends where
  stateFile : Option (List (String × PyVal))
  rowCheckpoint : Option (List (String × PyVal))
deriving Repr

/-- StateCheckpoint.clear_state: unlinks the state file.  No database
operation appears in its body, so the row blob is untouched. -/
def clear_state (b : CheckpointBackends) : CheckpointBackends :=
  { b with stateFile := none }

/-- Outcome of the file write in save_state.  `open(file, "w")` truncates
before `json.dump` runs, so a dump failure after a successful open leaves
the file without its previous content. -/
inductive FileWriteOutcome
  | fok | openFail | dumpFail
deriving DecidableEq, Repr

/-- Outcome of the row write in save_state (`db.save_checkpoint`); a SQL
UPDATE that fails leaves the row unchanged. -/
inductive DbWriteOutcome
  | dbok | dbfail
deriving DecidableEq, Repr

/-- StateCheckpoint.save_state persistence: the file write and the database
write each sit in their own try/except whose handler only logs, so the
function returns a state for every combination of outcomes. -/
def save_state (fo : FileWriteOutcome) (dbo : DbWriteOutcome)
    (b : CheckpointBackends) (checkpoint : List (String × PyVal)) : CheckpointBackends :=
  let b1 := match fo with
    | .fok => { b with stateFile := some checkpoint }
    | .openFail => b
    | .dumpFail => { b with stateFile := none }
  match dbo with
  | .dbok => { b1 with rowCheckpoint := some checkpoint }
  | .dbfail => b1

/-! ## ScannerEngine (src/core/scanner_engine.py) -/

/-- The static stage ordering ScannerEngine.MODULE_ORDER. -/
def MODULE_ORDER : List String :=
  ["subdomain_enum", "dns_resolution", "http_probe", "port_scan", "wayback_urls",
   "js_analysis", "gf_patterns", "fuzzing", "nuclei_scan"]

/-- First index of an element in a list (`list.index`, as an Option). -/
def indexIn (xs : List String) (x : String) : Option Nat :=
  match xs with
  | [] => none
  | hd :: tl => if hd = x then some 0 else (indexIn tl x).map (· + 1)

/-- ScannerEngine._get_module_index: a falsy name (None or empty) gives 0;
`MODULE_ORDER.index` gives the index of the name itself; the ValueError
branch for an unknown name gives 0. -/
def get_module_index (module_name : Option PyVal) : Nat :=
  match module_name with
  | some (.pstr name) =>
    if name = "" then 0
    else match indexIn MODULE_ORDER name with
      | some i => i
      | none => 0
  | _ => 0

/-- The start index computed at the top of ScannerEngine.run: 0 without a
resumable state, else `_get_module_index` of the stored current_module. -/
def resume_start_index (resume_state : Option ResumeState) : Nat :=
  match resume_state with
  | some st => if st.can_resume then get_module_index st.current_module else 0
  | none => 0

/-- The stage list the run loop iterates: `MODULE_ORDER[start_index:]`. -/
def modules_from (start_index : Nat) : List String := MODULE_ORDER.drop start_index

/-- ScannerEngine pause/stop flags. -/
structure EngineFlags where
  paused : Bool
  stopped : Bool
deriving DecidableEq, Repr

/-- The stage loop of ScannerEngine.run under a fixed stop flag: the flag is
checked at each stage boundary and, when clear, the stage executes. -/
def engine_loop (stopped : Bool) : List String → List String
  | [] => []
  | m :: rest => if stopped then [] else m :: engine_loop stopped rest

/-- The tail of ScannerEngine.run: on a loop not ended by the stop flag the
engine logs success and calls clear_state; a stopped loop skips clearance. -/
def engine_finish (stopped : Bool) (b : CheckpointBackends) : CheckpointBackends :=
  if stopped then b else clear_state b

/-- Granularity of ScannerEngine._wait_for_resume: asyncio.sleep(1). -/
def engine_poll_seconds : Nat := 1

/-- ScannerEngine._wait_for_resume with flags frozen at their current
values: every iteration sleeps one second; the result says whether the wait
exits within `fuel` polls. -/
def wait_for_resume (paused stopped : Bool) : Nat → Bool
  | 0 => false
  | fuel + 1 => if paused && !stopped then wait_for_resume paused stopped fuel else true

/-! ## SubprocessManager (src/core/subprocess_manager.py) -/

/-- Supervisor state: the pause/stop flags plus the tracked children and the
children that have been sent a terminate signal. -/
structure SubprocState where
  paused : Bool
  stopped : Bool
  activeProcs : List String
  terminatedProcs : List String
deriving DecidableEq, Repr

/-- SubprocessManager.pause_all: sets the pause flag and nothing else. -/
def pause_all (s : SubprocState) : SubprocState := { s with paused := true }

/-- SubprocessManager.resume_all: clears the pause flag. -/
def resume_all (s : SubprocState) : SubprocState := { s with paused := false }

/-- SubprocessManager.stop_all: sets the stop flag and terminates every
tracked child. -/
def stop_all (s : SubprocState) : SubprocState :=
  { s with stopped := true, terminatedProcs := s.terminatedProcs ++ s.activeProcs }

/-- ScannerEngine.pause: sets the engine pause flag and calls
subprocess_mgr.pause_all. -/
def engine_pause (e : EngineFlags) (sp : SubprocState) : EngineFlags × SubprocState :=
  ({ e with paused := true }, pause_all sp)

/-- ScannerEngine.stop: sets the engine stop flag and calls stop_all. -/
def engine_stop (e : EngineFlags) (sp : SubprocState) : EngineFlags × SubprocState :=
  ({ e with stopped := true }, stop_all sp)

/-- Sleep quantum of the inner pause loop of read_stream, in tenths of a
second: asyncio.sleep(0.1). -/
def reader_poll_tenths : Nat := 1

/-- The inner `while self._paused and not self._stopped` loop of
read_stream, flags frozen: each iteration sleeps 0.1 s; the result says
whether the loop exits within `fuel` sleeps. -/
def reader_pause_wait (paused stopped : Bool) : Nat → Bool
  | 0 => false
  | fuel + 1 => if paused && !stopped then reader_pause_wait paused stopped fuel else true

/-- The read_stream reader loop of SubprocessManager.run, flags frozen:
consumes lines in order; after each line it breaks on stop or sits in the
pause loop.  Returns the consumed lines and whether the loop finished
within `fuel` iterations. -/
def read_stream (paused stopped : Bool) : Nat → List String → List String × Bool
  | _, [] => ([], true)
  | 0, _ :: _ => ([], false)
  | fuel + 1, line :: rest =>
    if stopped then ([line], true)
    else if reader_pause_wait paused stopped (fuel + 1) then
      let r := read_stream paused stopped fuel rest
      (line :: r.1, r.2)
    else ([line], false)

/-- A POSIX signal sent to a child process. -/
inductive Sig
  | sigterm | sigkill
deriving DecidableEq, Repr

/-- What SubprocessManager.run reports for one child. -/
structure ProcessOutcome where
  returncode : Int
  signals : List Sig
deriving DecidableEq, Repr

/-- The completion path of SubprocessManager.run: if the readers take
longer than `timeout` seconds, asyncio.wait_for raises TimeoutError and the
handler calls proc.kill() once and reports return code -1; otherwise the
child exit code is reported and no signal is sent. -/
def subprocess_run (timeout wallSeconds : Nat) (exitCode : Int) : ProcessOutcome :=
  if timeout < wallSeconds then { returncode := -1, signals := [Sig.sigkill] }
  else { returncode := exitCode, signals := [] }

/-! ## TaskQueue (src/api/tasks.py)

The queue keeps one ScanTask object per scan; active_tasks and paused_tasks
hold references to the same objects, so a single status map models the
shared mutable task records, alongside the two id sets, the worker pause
event, the current-task pointer, and a log of update_scan_status calls. -/

/-- ScanTask.status values. -/
inductive TaskStatus
  | pending | running | tpaused | completed | failed | cancelled
deriving DecidableEq, Repr

/-- TaskQueue state together with the database write log. -/
structure TQState where
  statuses : List (String × TaskStatus)
  activeIds : List String
  pausedIds : List String
  pauseEventSet : Bool
  currentTask : Option String
  dbWrites : List (String × String)
deriving DecidableEq, Repr

/-- Mutate the shared task object status (task.status = ...). -/
def setStatus (id : String) (st : TaskStatus) (l : List (String × TaskStatus)) :
    List (String × TaskStatus) :=
  l.map (fun p => if p.1 == id then (p.1, st) else p)

/-- Status of a task object. -/
def statusOf (q : TQState) (id : String) : Option TaskStatus :=
  (q.statuses.find? (fun p => p.1 == id)).map (·.2)

/-- A db.update_scan_status call recorded in the log. -/
def dbWrite (id status : String) (q : TQState) : TQState :=
  { q with dbWrites := q.dbWrites ++ [(id, status)] }

/-- TaskQueue.add_task: enqueue, register as active, write status pending. -/
def add_task (id : String) (q : TQState) : TQState :=
  { q with statuses := q.statuses ++ [(id, .pending)],
           activeIds := q.activeIds ++ [id],
           dbWrites := q.dbWrites ++ [(id, "pending")] }

/-- TaskQueue.pause_task: for an active scan, mark the task paused, record
it in paused_tasks (the task stays in active_tasks), and clear the worker
pause event when it is the currently executing scan. -/
def pause_task (id : String) (q : TQState) : TQState :=
  if q.activeIds.contains id then
    let q1 := { q with
      statuses := setStatus id .tpaused q.statuses,
      pausedIds := if q.pausedIds.contains id then q.pausedIds else q.pausedIds ++ [id] }
    if q1.currentTask == some id then { q1 with pauseEventSet := false } else q1
  else q

/-- TaskQueue.resume_task: for a paused scan, pop it from paused_tasks,
mark it running, re-register it as active, and set the worker event. -/
def resume_task (id : String) (q : TQState) : TQState :=
  if q.pausedIds.contains id then
    { q with
      pausedIds := q.pausedIds.filter (fun x => x != id),
      statuses := setStatus id .running q.statuses,
      activeIds := if q.activeIds.contains id then q.activeIds else q.activeIds ++ [id],
      pauseEventSet := true }
  else q

/-- The whole system visible to a stop request: the queue plus the engine
and supervisor of the currently executing scan. -/
structure StopScenario where
  queue : TQState
  engine : EngineFlags
  subproc : SubprocState
deriving Repr

/-- TaskQueue.stop_task: for an active scan, set the task status to
cancelled and null the current-task pointer when it points at this scan.
No other state is touched: in particular the ScannerEngine of the running
scan is a local of _execute_task and stop_task never reaches it. -/
def stop_task (id : String) (s : StopScenario) : StopScenario :=
  if s.queue.activeIds.contains id then
    let q1 := { s.queue with statuses := setStatus id .cancelled s.queue.statuses }
    let q2 := if q1.currentTask == some id then { q1 with currentTask := none } else q1
    { s with queue := q2 }
  else s

/-- The tail of TaskQueue._execute_task when engine.run returns without
raising: mark the task completed, write status completed, clear the
current-task pointer and the active entry. -/
def execute_task_finish (id : String) (q : TQState) : TQState :=
  { q with statuses := setStatus id .completed q.statuses,
           dbWrites := q.dbWrites ++ [(id, "completed")],
           currentTask := none,
           activeIds := q.activeIds.filter (fun x => x != id) }

/-! ## DatabaseManager.update_scan_status (src/api/database.py) -/

/-- The mutable columns of a scans row that update_scan_status can touch. -/
structure ScanRow where
  status : String
  current_task : Option String
  progress : String
  started_at : Option Nat
  completed_at : Option Nat
  error_message : Option String
  checkpoint_data : Option String
deriving DecidableEq, Repr

/-- json.dumps of a progress dict in insertion order (no sort_keys here). -/
def progressDump (p : List (String × Nat)) : String :=
  dumpsRaw (.pdict (p.map (fun kv => (kv.1, .pint (kv.2 : Int)))))

/-- DatabaseManager.update_scan_status: always writes the given status;
writes current_task and progress only when truthy; stamps started_at on a
first transition to running and completed_at on completed or failed. -/
def update_scan_status (row : ScanRow) (status : String)
    (current_task : Option String) (progress : Option (List (String × Nat)))
    (now : Nat) : ScanRow :=
  let r1 := { row with status := status }
  let r2 := match current_task with
    | some t => if t = "" then r1 else { r1 with current_task := some t }
    | none => r1
  let r3 := match progress with
    | some p => if p = [] then r2 else { r2 with progress := progressDump p }
    | none => r2
  if status == "running" && row.started_at.isNone then { r3 with started_at := some now }
  else if status == "completed" || status == "failed" then { r3 with completed_at := some now }
  else r3

/-! ## ResilienceManager (src/api/resilience_manager.py) -/

/-- The monitor fields driving outage handling. -/
structure ResState where
  offline_since : Option Nat
  was_paused_by_outage : Bool
deriving DecidableEq, Repr

/-- Seconds offline before the monitor pauses scans. -/
def pause_threshold : Nat := 30

/-- Seconds slept after reconnect before resuming. -/
def resume_delay : Nat := 10

/-- Monitor tick interval in seconds. -/
def check_interval : Nat := 10

/-- The loop body of _auto_pause over a snapshot of active scan ids:
pause_task then a status write of paused, per scan. -/
def pause_loop (ids : List String) (q : TQState) : TQState :=
  match ids with
  | [] => q
  | id :: rest => pause_loop rest (dbWrite id "paused" (pause_task id q))

/-- ResilienceManager._auto_pause: remember the outage pause, then pause
every scan currently in active_tasks. -/
def auto_pause (rm : ResState) (q : TQState) : ResState × TQState :=
  ({ rm with was_paused_by_outage := true }, pause_loop q.activeIds q)

/-- The loop body of _auto_resume over a snapshot of paused scan ids:
resume_task then a status write of running, per scan. -/
def resume_loop (ids : List String) (q : TQState) : TQState :=
  match ids with
  | [] => q
  | id :: rest => resume_loop rest (dbWrite id "running" (resume_task id q))

/-- ResilienceManager._auto_resume: clear the outage flag, then resume
every scan currently in paused_tasks, whatever the reason it was paused. -/
def auto_resume (rm : ResState) (q : TQState) : ResState × TQState :=
  ({ rm with was_paused_by_outage := false }, resume_loop q.pausedIds q)

/-- ResilienceManager._handle_network_state at time `now`.  The first
component is the seconds the handler sleeps before acting (the
resume_delay wait of the auto-resume branch). -/
def handle_network_state (now : Nat) (is_online : Bool) (rm : ResState) (q : TQState) :
    Nat × ResState × TQState :=
  if !is_online then
    let rm1 := match rm.offline_since with
      | none => { rm with offline_since := some now }
      | some _ => rm
    let dur := now - rm1.offline_since.getD now
    if decide (pause_threshold ≤ dur) && !rm1.was_paused_by_outage then
      let r := auto_pause rm1 q
      (0, r.1, r.2)
    else (0, rm1, q)
  else
    match rm.offline_since with
    | some _ =>
      let rm1 := { rm with offline_since := none }
      if rm1.was_paused_by_outage then
        let r := auto_resume rm1 q
        (resume_delay, r.1, r.2)
      else (0, rm1, q)
    | none => (0, rm, q)

/-! ## ToolManager (src/core/tool_manager.py) -/

/-- The per-tool entry of config/tools.json, reduced to what ensure/install
branch on. -/
structure ToolCfg where
  has_install_cmd : Bool
deriving DecidableEq, Repr

/-- The environment a ToolManager call observes: the loaded config, the
tools whose binary probe succeeds, and the tools whose install command
exits 0 (an install that raises is a failure, like a nonzero exit). -/
structure ToolEnv where
  tools_config : List (String × ToolCfg)
  probe_ok : List String
  install_ok : List String
deriving Repr

/-- Lookup of a tool entry in the config. -/
def lookupCfg (env : ToolEnv) (name : String) : Option ToolCfg :=
  (env.tools_config.find? (fun p => p.1 == name)).map (·.2)

/-- ToolManager.check_tool: False without a config entry; otherwise whether
the binary probe succeeds. -/
def check_tool (env : ToolEnv) (name : String) : Bool :=
  (lookupCfg env name).isSome && env.probe_ok.contains name

/-- The installed_tools memo dict. -/
structure TMState where
  installed_tools : List (String × Bool)
deriving DecidableEq, Repr

/-- Memo lookup (`tool_name in self.installed_tools`). -/
def memoLookup (st : TMState) (name : String) : Option Bool :=
  (st.installed_tools.find? (fun p => p.1 == name)).map (·.2)

/-- Memo write (`self.installed_tools[tool_name] = b`). -/
def memoSet (st : TMState) (name : String) (b : Bool) : TMState :=
  if (st.installed_tools.find? (fun p => p.1 == name)).isSome then
    { installed_tools := st.installed_tools.map (fun p => if p.1 == name then (p.1, b) else p) }
  else { installed_tools := st.installed_tools ++ [(name, b)] }

/-- Result of ensure_tool/install_tool: the returned boolean, the memo
state afterwards, and whether the install command was invoked. -/
structure EnsureResult where
  ok : Bool
  state : TMState
  installRan : Bool
deriving DecidableEq, Repr

/-- ToolManager.install_tool: unknown tool or missing install_cmd fail
without running anything; otherwise the install command runs and a zero
exit records the memo and succeeds. -/
def install_tool (env : ToolEnv) (st : TMState) (name : String) : EnsureResult :=
  match lookupCfg env name with
  | none => { ok := false, state := st, installRan := false }
  | some cfg =>
    if !cfg.has_install_cmd then { ok := false, state := st, installRan := false }
    else if env.install_ok.contains name then
      { ok := true, state := memoSet st name true, installRan := true }
    else { ok := false, state := st, installRan := true }

/-- ToolManager.ensure_tool: return the memo when present; else probe and
memoise on success; else defer to install_tool. -/
def ensure_tool (env : ToolEnv) (st : TMState) (name : String) : EnsureResult :=
  match memoLookup st name with
  | some b => { ok := b, state := st, installRan := false }
  | none =>
    if check_tool env name then { ok := true, state := memoSet st name true, installRan := false }
    else install_tool env st name

/-! ## Stage loop with checkpointing (ScannerEngine._run_module, C10) -/

/-- The results cache after a list of modules has completed, module results
given by `results`. -/
def cache_up_to (results : String → PyVal) (mods : List String) : List (String × PyVal) :=
  mods.map (fun m => (m, results m))

/-- The stage loop of ScannerEngine.run from index `i` on, with save_state
outcomes per stage: each completed stage saves a checkpoint whose write
failures are swallowed, and the loop always proceeds to the next stage.
Returns the executed stages and the final checkpoint backends. -/
def run_all_saving (results : String → PyVal) (fo : Nat → FileWriteOutcome)
    (dbo : Nat → DbWriteOutcome) (scan_id timestamp : String) :
    Nat → List String → CheckpointBackends → List String × CheckpointBackends
  | _, [], b => ([], b)
  | i, m :: rest, b =>
    let ckpt := save_payload scan_id timestamp m (MODULE_ORDER.take (i + 1))
       (MODULE_ORDER.drop (i + 1)) [] (cache_up_to results (MODULE_ORDER.take (i + 1)))
    let b1 := save_state (fo i) (dbo i) b ckpt
    let r := run_all_saving results fo dbo scan_id timestamp (i + 1) rest b1
    (m :: r.1, r.2)

/-! ## Concrete scenarios used by the claim theorems -/

/-- A checkpoint as save_state writes it right after the first stage of a
fresh scan completes (empty results cache, empty module state). -/
def c1Payload : List (String × PyVal) :=
  save_payload "s1" "2024-01-01T00:00:00" "subdomain_enum" (MODULE_ORDER.take 1)
    (MODULE_ORDER.drop 1) [] []

/-- A checkpoint whose last completed stage is http_probe (stage index 2),
as save_state writes it after the third stage completes. -/
def c2Ckpt : List (String × PyVal) :=
  save_payload "s2" "2024-01-01T00:00:00" "http_probe" (MODULE_ORDER.take 3)
    (MODULE_ORDER.drop 3) [] []

/-- A system in which scan s1 is the currently executing scan, sitting at
the stage boundary after the first stage. -/
def c3Start : StopScenario :=
  { queue := { statuses := [("s1", .running)], activeIds := ["s1"], pausedIds := [],
               pauseEventSet := true, currentTask := some "s1", dbWrites := [] },
    engine := { paused := false, stopped := false },
    subproc := { paused := false, stopped := false, activeProcs := [], terminatedProcs := [] } }

/-- A scan row already in the terminal status completed. -/
def c4Row : ScanRow :=
  { status := "completed", current_task := some "Running nuclei_scan", progress := "\x7b\x7d",
    started_at := some 1, completed_at := some 2, error_message := none,
    checkpoint_data := some "blob" }

/-- A small stored checkpoint payload. -/
def c5Blob : List (String × PyVal) := [("scan_id", .pstr "s1")]

/-- A queue with the single running scan s1 under execution. -/
def c6q0 : TQState :=
  { statuses := [("s1", .running)], activeIds := ["s1"], pausedIds := [],
    pauseEventSet := true, currentTask := some "s1", dbWrites := [] }

/-- The monitor just before the outage reaches the pause threshold: offline
since t = 100, no outage pause issued yet. -/
def c6rm0 : ResState := { offline_since := some 100, was_paused_by_outage := false }

/-- Tick at t = 130 while still offline: 30 s elapsed, so the monitor
issues the outage pause for every active scan (here s1). -/
def c6AfterOutage : Nat × ResState × TQState := handle_network_state 130 false c6rm0 c6q0

/-- During the outage the user adds scan s3 and pauses it by command; the
outage pause never touched s3. -/
def c6q3 : TQState := pause_task "s3" (add_task "s3" c6AfterOutage.2.2)

/-- Tick at t = 140 with the network back: the monitor sleeps 10 s and
auto-resumes. -/
def c6Final : Nat × ResState × TQState := handle_network_state 140 true c6AfterOutage.2.1 c6q3

/-- A queue with one outage-paused scan, used by the C6 witness. -/
def c6qW : TQState :=
  { statuses := [("s1", .tpaused)], activeIds := ["s1"], pausedIds := ["s1"],
    pauseEventSet := false, currentTask := none, dbWrites := [] }

/-- A monitor that has issued an outage pause, used by the C6 witness. -/
def c6rmW : ResState := { offline_since := some 100, was_paused_by_outage := true }

/-- The memo entries used by the tool-manager witness: one tool whose
binary probe succeeds. -/
def c9Env : ToolEnv :=
  { tools_config := [("subfinder", { has_install_cmd := true })],
    probe_ok := ["subfinder"], install_ok := [] }

/-- A previously stored checkpoint payload. -/
def c10Old : List (String × PyVal) := [("scan_id", .pstr "s1")]

/-- The next checkpoint payload being saved. -/
def c10New : List (String × PyVal) :=
  [("scan_id", .pstr "s1"), ("current_module", .pstr "http_probe")]

/-! ## Claim theorems -/

/-- C1 (code bug): the checkpoint written by save_state does not pass
_verify_checksum and the save/load round trip fails.  The stored checksum
is `_generate_checksum(results_cache)` -- computed over the results cache
alone -- while _verify_checksum recomputes the checksum over the whole
payload with the checksum field removed; the two hashes differ, so the
saved payload is rejected and load_state returns None from both the file
and the row backend instead of the structurally equal payload the claim
describes. -/
theorem c1_checkpoint_roundtrip_broken :
    verify_checksum c1Payload = false ∧
    load_state (some c1Payload) (some c1Payload) = none ∧
    lookupKey c1Payload "checksum" = some (.pstr (generate_checksum (.pdict []))) ∧
    generate_checksum (.pdict []) ≠
      generate_checksum (.pdict (c1Payload.filter (fun kv => kv.1 != "checksum"))) :=
  ⟨by decide, rfl, rfl, by decide⟩

/-- An element found at index i by indexIn heads the drop at i. -/
theorem indexIn_drop_head (xs : List String) (x : String) :
    ∀ i, indexIn xs x = some i → (xs.drop i).head? = some x := by
  induction xs with
  | nil => intro i h; simp [indexIn] at h
  | cons hd tl ih =>
    intro i h
    by_cases hx : hd = x
    · rw [indexIn, if_pos hx] at h
      cases h
      simpa using hx
    · rw [indexIn, if_neg hx] at h
      cases hj : indexIn tl x with
      | none => rw [hj] at h; cases h
      | some j =>
        rw [hj] at h
        cases h
        simpa using ih j hj

/-- The current_module field of a payload written by save_state. -/
theorem lookup_current_module (sid ts cm : String) (c p : List String)
    (ms rc : List (String × PyVal)) :
    lookupKey (save_payload sid ts cm c p ms rc) "current_module" = some (.pstr cm) := rfl

/-- C2 counterexample: a loaded checkpoint recording last completed stage
http_probe resolves to start index 2 -- the index of http_probe itself --
so the first stage the loop runs is http_probe again, not port_scan at
index 3 as the claim requires. -/
theorem c2_resume_reruns_last_completed :
    resume_start_index (some (deserialize_results c2Ckpt)) = 2 ∧
    (modules_from 2).head? = some "http_probe" ∧
    "http_probe" ∈ modules_from 2 ∧
    (modules_from 2).head? ≠ some "port_scan" := by
  decide

/-- C2 (amended): for a resumed scan whose checkpoint records last
completed stage K at index i, the engine starts at index i and re-executes
K first (skipping only the stages before K); a missing resume state or an
unknown or missing stage name resolves to index 0. -/
theorem c2_resume_start_index (name : String) (i : Nat)
    (h : indexIn MODULE_ORDER name = some i) :
    resume_start_index (some (deserialize_results (save_payload "s" "t" name
      (MODULE_ORDER.take (i + 1)) (MODULE_ORDER.drop (i + 1)) [] []))) = i ∧
    (modules_from i).head? = some name ∧
    resume_start_index none = 0 ∧
    get_module_index (some (.pstr "no_such_module")) = 0 ∧
    get_module_index none = 0 := by
  have hne : name ≠ "" := by
    intro he
    rw [he] at h
    exact Option.noConfusion ((rfl : indexIn MODULE_ORDER "" = none) ▸ h)
  refine ⟨?_, indexIn_drop_head MODULE_ORDER name i h, by decide, by decide, rfl⟩
  have h1 : resume_start_index (some (deserialize_results (save_payload "s" "t" name
      (MODULE_ORDER.take (i + 1)) (MODULE_ORDER.drop (i + 1)) [] []))) =
      get_module_index (some (.pstr name)) := by
    simp [resume_start_index, deserialize_results, lookup_current_module]
  rw [h1, get_module_index]
  simp [hne, h]

/-- C2 witness: the amended statement at the concrete stage http_probe,
index 2. -/
theorem c2_resume_start_index_witness :
    indexIn MODULE_ORDER "http_probe" = some 2 ∧
    (resume_start_index (some (deserialize_results (save_payload "s" "t" "http_probe"
      (MODULE_ORDER.take 3) (MODULE_ORDER.drop 3) [] []))) = 2 ∧
    (modules_from 2).head? = some "http_probe" ∧
    resume_start_index none = 0 ∧
    get_module_index (some (.pstr "no_such_module")) = 0 ∧
    get_module_index none = 0) :=
  ⟨by decide, c2_resume_start_index "http_probe" 2 (by decide)⟩

/-- C3 (code bug): stopping the currently executing scan through
TaskQueue.stop_task only marks the task cancelled and clears the
current-task pointer; the ScannerEngine stop flag stays false, every
remaining stage still begins, and _execute_task finally records the scan
completed -- not failed with "stopped by user" as specified. -/
theorem c3_stop_does_not_stop :
    (stop_task "s1" c3Start).engine.stopped = false ∧
    (stop_task "s1" c3Start).subproc.terminatedProcs = [] ∧
    statusOf (stop_task "s1" c3Start).queue "s1" = some .cancelled ∧
    engine_loop (stop_task "s1" c3Start).engine.stopped (MODULE_ORDER.drop 1) =
      MODULE_ORDER.drop 1 ∧
    statusOf (execute_task_finish "s1" (stop_task "s1" c3Start).queue) "s1" =
      some .completed ∧
    (execute_task_finish "s1" (stop_task "s1" c3Start).queue).dbWrites =
      [("s1", "completed")] := by
  decide

/-- C4 counterexample: a row whose status is the terminal completed is
freely overwritten by a later update_scan_status call -- the status moves
back to running and current_task changes, contradicting the claim that a
terminal row only changes by checkpoint clearance. -/
theorem c4_terminal_not_absorbing :
    (update_scan_status c4Row "running" (some "Running subdomain_enum") none 10).status =
      "running" ∧
    (update_scan_status c4Row "running" (some "Running subdomain_enum") none 10).current_task =
      some "Running subdomain_enum" ∧
    update_scan_status c4Row "running" (some "Running subdomain_enum") none 10 ≠ c4Row := by
  decide

/-- C4 (amended): update_scan_status writes the requested status
unconditionally -- it never reads the current status except for timestamp
bookkeeping -- so terminal states are not absorbing; it also never touches
the checkpoint or error columns. -/
theorem c4_update_overwrites_status (row : ScanRow) (status : String)
    (ct : Option String) (p : Option (List (String × Nat))) (now : Nat) :
    (update_scan_status row status ct p now).status = status ∧
    (update_scan_status row status ct p now).checkpoint_data = row.checkpoint_data ∧
    (update_scan_status row status ct p now).error_message = row.error_message := by
  unfold update_scan_status
  cases ct <;> cases p <;> dsimp only <;> split_ifs <;> simp

/-- C5 counterexample: after a successful completion the engine calls
clear_state, which removes the state file but leaves the checkpoint blob
on the Scan row in place -- the claim that both backings are removed
fails. -/
theorem c5_clearance_leaves_row_blob :
    (engine_finish false { stateFile := some c5Blob, rowCheckpoint := some c5Blob }).stateFile =
      none ∧
    (engine_finish false { stateFile := some c5Blob, rowCheckpoint := some c5Blob }).rowCheckpoint =
      some c5Blob :=
  ⟨rfl, rfl⟩

/-- C5 (amended): on successful completion (stop flag clear) the engine
clears exactly the file backing: the state file is unlinked and the row
checkpoint blob survives unchanged; a stopped run clears nothing. -/
theorem c5_clearance_file_only (b : CheckpointBackends) :
    engine_finish false b = { stateFile := none, rowCheckpoint := b.rowCheckpoint } ∧
    engine_finish true b = b :=
  ⟨rfl, rfl⟩

/-- find? by key commutes with mapping a key-preserving function. -/
theorem find_map_keep_fst {β : Type} (f : String × β → String × β)
    (hf : ∀ p, (f p).1 = p.1) (x : String) (l : List (String × β)) :
    (l.map f).find? (fun p => p.1 == x) = (l.find? (fun p => p.1 == x)).map f := by
  induction l with
  | nil => rfl
  | cons hd tl ih =>
    simp only [List.map_cons, List.find?]
    rw [hf hd]
    cases hpa : (hd.1 == x) with
    | true => simp [hpa]
    | false => simp [hpa, ih]

/-- setStatus preserves the existence of a task entry. -/
theorem find_setStatus_isSome (id x : String) (st : TaskStatus)
    (l : List (String × TaskStatus)) :
    ((setStatus id st l).find? (fun p => p.1 == x)).isSome =
      (l.find? (fun p => p.1 == x)).isSome := by
  rw [setStatus, find_map_keep_fst _ (fun p => by cases h : (p.1 == id) <;> simp [h]) x l]
  cases l.find? (fun p => p.1 == x) <;> rfl

/-- setStatus writes the requested status to an existing entry. -/
theorem find_setStatus_self (id : String) (st : TaskStatus)
    (l : List (String × TaskStatus))
    (h : (l.find? (fun p => p.1 == id)).isSome = true) :
    ((setStatus id st l).find? (fun p => p.1 == id)).map (·.2) = some st := by
  rw [setStatus, find_map_keep_fst _ (fun p => by cases hc : (p.1 == id) <;> simp [hc]) id l]
  cases hf : l.find? (fun p => p.1 == id) with
  | none => rw [hf] at h; cases h
  | some p0 =>
    have hp : (p0.1 == id) = true := by simpa using List.find?_some hf
    have hpe : p0.1 = id := by simpa using hp
    simp [hp, hpe]

/-- setStatus leaves entries under other keys unchanged. -/
theorem find_setStatus_other (id x : String) (st : TaskStatus)
    (l : List (String × TaskStatus)) (hne : x ≠ id) :
    ((setStatus id st l).find? (fun p => p.1 == x)).map (·.2) =
      (l.find? (fun p => p.1 == x)).map (·.2) := by
  rw [setStatus, find_map_keep_fst _ (fun p => by cases hc : (p.1 == id) <;> simp [hc]) x l]
  cases hf : l.find? (fun p => p.1 == x) with
  | none => rfl
  | some p0 =>
    have hp : p0.1 = x := by simpa using List.find?_some hf
    simp [hp, hne]

/-- resume_task of a paused scan marks its task running. -/
theorem statusOf_resume_self (q : TQState) (x : String)
    (hx : q.pausedIds.contains x = true)
    (hentry : (q.statuses.find? (fun p => p.1 == x)).isSome = true) :
    statusOf (resume_task x q) x = some .running := by
  unfold resume_task statusOf
  rw [if_pos hx]
  exact find_setStatus_self x .running q.statuses hentry

/-- resume_task never moves a running task away from running. -/
theorem statusOf_resume_preserve (q : TQState) (x y : String)
    (h : statusOf q x = some .running) :
    statusOf (resume_task y q) x = some .running := by
  unfold resume_task
  by_cases hc : q.pausedIds.contains y = true
  case neg => rw [if_neg hc]; exact h
  case pos =>
    rw [if_pos hc]
    by_cases hxy : x = y
    · subst hxy
      have hentry : (q.statuses.find? (fun p => p.1 == x)).isSome = true := by
        unfold statusOf at h
        cases hf : q.statuses.find? (fun p => p.1 == x) with
        | none => rw [hf] at h; cases h
        | some p0 => rfl
      show ((setStatus x .running q.statuses).find? (fun p => p.1 == x)).map (·.2) =
        some .running
      exact find_setStatus_self x .running q.statuses hentry
    · show ((setStatus y .running q.statuses).find? (fun p => p.1 == x)).map (·.2) =
        some .running
      rw [find_setStatus_other y x .running q.statuses hxy]
      exact h

/-- resume_task preserves the existence of any task entry. -/
theorem entry_resume_preserve (q : TQState) (x y : String)
    (h : (q.statuses.find? (fun p => p.1 == x)).isSome = true) :
    ((resume_task y q).statuses.find? (fun p => p.1 == x)).isSome = true := by
  unfold resume_task
  by_cases hc : q.pausedIds.contains y = true
  case neg => rw [if_neg hc]; exact h
  case pos =>
    rw [if_pos hc]
    show ((setStatus y .running q.statuses).find? (fun p => p.1 == x)).isSome = true
    rw [find_setStatus_isSome]
    exact h

/-- resume_task removes exactly the given scan from the paused map. -/
theorem resume_task_pausedIds (y : String) (q : TQState) :
    (resume_task y q).pausedIds = q.pausedIds.filter (fun z => z != y) := by
  unfold resume_task
  by_cases hc : q.pausedIds.contains y = true
  case pos => rw [if_pos hc]
  case neg =>
    rw [if_neg hc]
    have hall : ∀ z ∈ q.pausedIds, (z != y) = true := by
      intro z hz
      have hzy : z ≠ y := by
        intro he
        rw [he] at hz
        exact hc (List.elem_iff.mpr hz)
      simp [hzy]
    exact (List.filter_eq_self.mpr hall).symm

/-- The resume loop keeps a running task running. -/
theorem resume_loop_keeps_running (ids : List String) :
    ∀ (q : TQState) (x : String), statusOf q x = some .running →
      statusOf (resume_loop ids q) x = some .running := by
  induction ids with
  | nil => intro q x h; exact h
  | cons id rest ih =>
    intro q x h
    rw [resume_loop]
    exact ih _ x (statusOf_resume_preserve q x id h)

/-- After the resume loop over a snapshot containing a paused scan with a
task entry, that task is running. -/
theorem resume_loop_status (ids : List String) :
    ∀ (q : TQState) (x : String), x ∈ ids →
      (q.statuses.find? (fun p => p.1 == x)).isSome = true →
      (q.pausedIds.contains x = true ∨ statusOf q x = some .running) →
      statusOf (resume_loop ids q) x = some .running := by
  induction ids with
  | nil => intro q x hmem; cases hmem
  | cons id rest ih =>
    intro q x hmem hentry hdisj
    rw [resume_loop]
    by_cases hxy : x = id
    · subst hxy
      have hrun : statusOf (resume_task x q) x = some .running := by
        cases hdisj with
        | inl hp => exact statusOf_resume_self q x hp hentry
        | inr hr => exact statusOf_resume_preserve q x x hr
      exact resume_loop_keeps_running rest _ x hrun
    · have hmem2 : x ∈ rest := by
        cases List.mem_cons.mp hmem with
        | inl he => exact absurd he hxy
        | inr hr => exact hr
      have hdisj2 : (dbWrite id "running" (resume_task id q)).pausedIds.contains x = true ∨
          statusOf (dbWrite id "running" (resume_task id q)) x = some .running := by
        cases hdisj with
        | inl hp =>
          left
          have hxmem : x ∈ q.pausedIds := List.elem_iff.mp hp
          have hmem3 : x ∈ (resume_task id q).pausedIds := by
            rw [resume_task_pausedIds]
            exact List.mem_filter.mpr ⟨hxmem, by simp [hxy]⟩
          exact List.elem_iff.mpr hmem3
        | inr hr =>
          right
          exact statusOf_resume_preserve q x id hr
      exact ih (dbWrite id "running" (resume_task id q)) x hmem2
        (entry_resume_preserve q x id hentry) hdisj2

/-- The resume loop removes every processed id from the paused map and
adds none. -/
theorem resume_loop_pausedIds (ids : List String) :
    ∀ q : TQState, (resume_loop ids q).pausedIds =
      q.pausedIds.filter (fun z => !(ids.contains z)) := by
  induction ids with
  | nil =>
    intro q
    exact (List.filter_eq_self.mpr (fun a _ => rfl)).symm
  | cons id rest ih =>
    intro q
    rw [resume_loop, ih]
    have hdb : (dbWrite id "running" (resume_task id q)).pausedIds =
        q.pausedIds.filter (fun z => z != id) := resume_task_pausedIds id q
    rw [hdb, List.filter_filter]
    apply List.filter_congr
    intro z _
    rw [List.contains_cons]
    cases hz : (z == id) <;> cases hr : rest.contains z <;> simp [hz, hr, bne]

/-- The resume loop only appends to the database write log. -/
theorem resume_loop_dbWrites_mono (ids : List String) :
    ∀ (q : TQState) (w : String × String), w ∈ q.dbWrites →
      w ∈ (resume_loop ids q).dbWrites := by
  induction ids with
  | nil => intro q w h; exact h
  | cons id rest ih =>
    intro q w h
    rw [resume_loop]
    apply ih
    have hrt : (resume_task id q).dbWrites = q.dbWrites := by
      unfold resume_task
      by_cases hc : q.pausedIds.contains id = true
      case pos => rw [if_pos hc]
      case neg => rw [if_neg hc]
    show w ∈ (resume_task id q).dbWrites ++ [(id, "running")]
    rw [hrt]
    exact List.mem_append_left _ h

/-- The resume loop writes a running status for every id it visits. -/
theorem resume_loop_writes_running (ids : List String) :
    ∀ (q : TQState) (x : String), x ∈ ids →
      (x, "running") ∈ (resume_loop ids q).dbWrites := by
  induction ids with
  | nil => intro q x h; cases h
  | cons id rest ih =>
    intro q x hmem
    rw [resume_loop]
    by_cases hxy : x = id
    · subst hxy
      apply resume_loop_dbWrites_mono
      show (x, "running") ∈ (resume_task x q).dbWrites ++ [(x, "running")]
      exact List.mem_append_right _ (by simp)
    · have hmem2 : x ∈ rest := by
        cases List.mem_cons.mp hmem with
        | inl he => exact absurd he hxy
        | inr hr => exact hr
      exact ih _ x hmem2

/-- C6 counterexample: during an outage pause the user adds scan s3 and
pauses it by command; the outage pause (issued earlier) never touched s3,
yet when the network returns the auto-resume step resumes s3 as well,
writing it a running status -- so the resumed set is not limited to the
scans paused due to the outage. -/
theorem c6_autoresume_resumes_user_paused :
    c6AfterOutage.2.1.was_paused_by_outage = true ∧
    c6AfterOutage.2.2.pausedIds.contains "s3" = false ∧
    c6q3.pausedIds.contains "s3" = true ∧
    c6Final.1 = 10 ∧
    statusOf c6Final.2.2 "s3" = some .running ∧
    ("s3", "running") ∈ c6Final.2.2.dbWrites := by
  decide

/-- C6 (amended): when the probe succeeds while an outage pause is
outstanding, the monitor sleeps resume_delay = 10 s and then resumes every
scan in the paused map, whatever the reason it was paused: each such task
ends running with a running status written, the paused map drains, and the
outage flag clears. -/
theorem c6_autoresume_resumes_all_paused (now t : Nat) (rm : ResState) (q : TQState)
    (x : String) (h1 : rm.offline_since = some t) (h2 : rm.was_paused_by_outage = true)
    (hx : q.pausedIds.contains x = true)
    (hentry : (q.statuses.find? (fun p => p.1 == x)).isSome = true) :
    (handle_network_state now true rm q).1 = resume_delay ∧
    statusOf (handle_network_state now true rm q).2.2 x = some .running ∧
    (x, "running") ∈ (handle_network_state now true rm q).2.2.dbWrites ∧
    (handle_network_state now true rm q).2.2.pausedIds = [] ∧
    (handle_network_state now true rm q).2.1.was_paused_by_outage = false := by
  have hred : handle_network_state now true rm q =
      (resume_delay, { offline_since := none, was_paused_by_outage := false },
        resume_loop q.pausedIds q) := by
    unfold handle_network_state
    rw [h1]
    simp [h2, auto_resume]
  rw [hred]
  have hxmem : x ∈ q.pausedIds := List.elem_iff.mp hx
  refine ⟨rfl, ?_, ?_, ?_, rfl⟩
  · exact resume_loop_status q.pausedIds q x hxmem hentry (Or.inl hx)
  · exact resume_loop_writes_running q.pausedIds q x hxmem
  · rw [resume_loop_pausedIds]
    apply List.filter_eq_nil_iff.mpr
    intro a ha
    simpa using ha

/-- C6 witness: the amended statement at a concrete queue with one paused
scan. -/
theorem c6_autoresume_witness :
    (c6rmW.offline_since = some 100 ∧ c6rmW.was_paused_by_outage = true ∧
     c6qW.pausedIds.contains "s1" = true ∧
     (c6qW.statuses.find? (fun p => p.1 == "s1")).isSome = true) ∧
    ((handle_network_state 140 true c6rmW c6qW).1 = resume_delay ∧
     statusOf (handle_network_state 140 true c6rmW c6qW).2.2 "s1" = some .running ∧
     ("s1", "running") ∈ (handle_network_state 140 true c6rmW c6qW).2.2.dbWrites ∧
     (handle_network_state 140 true c6rmW c6qW).2.2.pausedIds = [] ∧
     (handle_network_state 140 true c6rmW c6qW).2.1.was_paused_by_outage = false) :=
  ⟨⟨rfl, rfl, by decide, by decide⟩,
   c6_autoresume_resumes_all_paused 140 100 c6rmW c6qW "s1" rfl rfl (by decide) (by decide)⟩

/-- C7 counterexample: with the pause flag set by ScannerEngine.pause (it
calls subprocess_mgr.pause_all), the subprocess reader consumes the line
it already read and then sits in the 0.1 s sleep loop: after 100 further
polls the second output line is still unconsumed and the reader has not
finished, so the in-flight stage is suspended mid-stage rather than
running to completion; without the pause the same stream drains fully. -/
theorem c7_pause_suspends_midstage :
    read_stream true false 100 ["line1", "line2"] = (["line1"], false) ∧
    read_stream false false 100 ["line1", "line2"] = (["line1", "line2"], true) ∧
    (engine_pause { paused := false, stopped := false }
      { paused := false, stopped := false, activeProcs := ["subfinder"],
        terminatedProcs := [] }).2.paused = true := by
  decide

/-- The engine boundary wait never exits while the pause flag is set and
the stop flag is clear, whatever the fuel. -/
theorem wait_for_resume_stays (n : Nat) : wait_for_resume true false n = false := by
  induction n with
  | zero => rfl
  | succ k ih => simpa [wait_for_resume] using ih

/-- The reader pause loop never exits while the pause flag is set and the
stop flag is clear, whatever the fuel. -/
theorem reader_pause_wait_stays (n : Nat) : reader_pause_wait true false n = false := by
  induction n with
  | zero => rfl
  | succ k ih => simpa [reader_pause_wait] using ih

/-- C7 (amended): pause terminates no child process (pause_all only sets
the flag), the engine boundary wait polls at 1 s granularity, but the
pause also suspends subprocess output consumption mid-stage: while it
holds, a reader with pending output consumes exactly the line it already
read and never finishes, so an in-flight stage does not run to completion
during the pause. -/
theorem c7_pause_boundary_and_reader (sp : SubprocState) (e : EngineFlags)
    (n : Nat) (line : String) (rest : List String) :
    (engine_pause e sp).2.terminatedProcs = sp.terminatedProcs ∧
    (engine_pause e sp).2.activeProcs = sp.activeProcs ∧
    engine_poll_seconds = 1 ∧ reader_poll_tenths = 1 ∧
    wait_for_resume true false n = false ∧
    wait_for_resume false false (n + 1) = true ∧
    read_stream true false (n + 1) (line :: rest) = ([line], false) := by
  refine ⟨rfl, rfl, rfl, rfl, wait_for_resume_stays n, rfl, ?_⟩
  simp [read_stream, reader_pause_wait_stays]

/-- C8 counterexample: a run whose readers outlast the 5 s budget is
killed outright -- the recorded signal trace is a single SIGKILL with no
terminate signal and no grace window -- though the return code is the
specified -1. -/
theorem c8_timeout_kills_immediately :
    subprocess_run 5 6 0 = { returncode := -1, signals := [Sig.sigkill] } ∧
    Sig.sigterm ∉ (subprocess_run 5 6 0).signals := by
  decide

/-- C8 (amended): when the wall time exceeds the budget the child is
immediately force-killed (one SIGKILL, no terminate signal, no 5 s grace
window) and the return code is reported as -1; within the budget the child
exit code is reported and no signal is sent, so a timeout is
distinguishable from a nonzero exit. -/
theorem c8_timeout_outcome (t d : Nat) (ec : Int) :
    subprocess_run t (t + d + 1) ec = { returncode := -1, signals := [Sig.sigkill] } ∧
    subprocess_run (t + d) t ec = { returncode := ec, signals := [] } := by
  constructor
  · unfold subprocess_run
    rw [if_pos (by omega)]
  · unfold subprocess_run
    rw [if_neg (by omega)]

/-- A find? that comes up empty stays empty on everything before an
appended matching entry, which is then found. -/
theorem find_append_singleton {β : Type} (l : List (String × β)) (name : String) (b : β)
    (h : l.find? (fun p => p.1 == name) = none) :
    (l ++ [(name, b)]).find? (fun p => p.1 == name) = some (name, b) := by
  rw [List.find?_append, h]
  simp [List.find?]

/-- The memo written by memoSet is what memoLookup reads back. -/
theorem memoLookup_memoSet (st : TMState) (name : String) (b : Bool) :
    memoLookup (memoSet st name b) name = some b := by
  unfold memoLookup memoSet
  by_cases hfind : (st.installed_tools.find? (fun p => p.1 == name)).isSome = true
  case pos =>
    rw [if_pos hfind]
    cases hf : st.installed_tools.find? (fun p => p.1 == name) with
    | none => rw [hf] at hfind; cases hfind
    | some p0 =>
      have hp : (p0.1 == name) = true := by simpa using List.find?_some hf
      have hpe : p0.1 = name := by simpa using hp
      rw [show (st.installed_tools.map (fun p => if p.1 == name then (p.1, b) else p)) =
          (st.installed_tools.map (fun p : String × Bool =>
            if p.1 == name then (p.1, b) else p)) from rfl,
        find_map_keep_fst (fun p : String × Bool => if p.1 == name then (p.1, b) else p)
          (fun p => by cases hc : (p.1 == name) <;> simp [hc]) name st.installed_tools, hf]
      simp [hp, hpe]
  case neg =>
    rw [if_neg hfind]
    have hnone : st.installed_tools.find? (fun p => p.1 == name) = none := by
      cases hf : st.installed_tools.find? (fun p => p.1 == name) with
      | none => rfl
      | some p0 => rw [hf] at hfind; exact absurd rfl hfind
    rw [find_append_singleton st.installed_tools name b hnone]
    rfl

/-- A memo hit of true makes ensure_tool a pure no-op returning true. -/
theorem ensure_tool_memo_hit (env : ToolEnv) (st2 : TMState) (name : String)
    (h : memoLookup st2 name = some true) :
    ensure_tool env st2 name = { ok := true, state := st2, installRan := false } := by
  unfold ensure_tool
  rw [h]

/-- A successful ensure_tool call always leaves a true memo for the tool in
the state it returns. -/
theorem ensure_tool_ok_memo (env : ToolEnv) (st : TMState) (name : String)
    (h : (ensure_tool env st name).ok = true) :
    memoLookup (ensure_tool env st name).state name = some true := by
  unfold ensure_tool at h ⊢
  cases hmemo : memoLookup st name with
  | some b =>
    simp only [hmemo] at h ⊢
    cases b with
    | false => simp at h
    | true => rfl
  | none =>
    simp only [hmemo] at h ⊢
    by_cases hchk : check_tool env name = true
    case pos =>
      rw [if_pos hchk] at h ⊢
      exact memoLookup_memoSet st name true
    case neg =>
      rw [if_neg hchk] at h ⊢
      unfold install_tool at h ⊢
      cases hcfg : lookupCfg env name with
      | none => simp only [hcfg] at h; simp at h
      | some cfg =>
        simp only [hcfg] at h ⊢
        by_cases hic : (!cfg.has_install_cmd) = true
        case pos => rw [if_pos hic] at h; simp at h
        case neg =>
          rw [if_neg hic] at h ⊢
          by_cases hio : env.install_ok.contains name = true
          case pos =>
            rw [if_pos hio] at h ⊢
            exact memoLookup_memoSet st name true
          case neg => rw [if_neg hio] at h; simp at h

/-- C9: ensure_tool is idempotent after success.  Whenever an ensure_tool
call returned true -- through the memo, a successful probe, or a
successful install -- the returned state carries a true installed memo, so
re-running ensure_tool returns true straight from the memo, leaves the
state unchanged, and does not invoke the install command. -/
theorem c9_ensure_tool_idempotent (env : ToolEnv) (st : TMState) (name : String)
    (h : (ensure_tool env st name).ok = true) :
    ensure_tool env (ensure_tool env st name).state name =
      { ok := true, state := (ensure_tool env st name).state, installRan := false } :=
  ensure_tool_memo_hit env (ensure_tool env st name).state name
    (ensure_tool_ok_memo env st name h)

/-- C9 witness: a tool whose binary probe succeeds; the first ensure
returns true, and the re-run is a memo no-op. -/
theorem c9_ensure_tool_idempotent_witness :
    (ensure_tool c9Env { installed_tools := [] } "subfinder").ok = true ∧
    ensure_tool c9Env (ensure_tool c9Env { installed_tools := [] } "subfinder").state
        "subfinder" =
      { ok := true, state := (ensure_tool c9Env { installed_tools := [] } "subfinder").state,
        installRan := false } :=
  ⟨by decide, c9_ensure_tool_idempotent c9Env { installed_tools := [] } "subfinder" (by decide)⟩

/-- C10 counterexample: when the JSON dump raises after the file was
opened for writing (open with mode w truncates first) and the row write
also fails, save_state still returns, but the file no longer holds the
previous checkpoint -- only the row blob survives -- refuting the claim
that any previously stored checkpoint is left in place on failure. -/
theorem c10_dump_failure_loses_file_checkpoint :
    (save_state .dumpFail .dbfail
      { stateFile := some c10Old, rowCheckpoint := some c10Old } c10New).stateFile = none ∧
    (save_state .dumpFail .dbfail
      { stateFile := some c10Old, rowCheckpoint := some c10Old } c10New).rowCheckpoint =
      some c10Old ∧
    (save_state .dumpFail .dbfail
      { stateFile := some c10Old, rowCheckpoint := some c10Old } c10New).stateFile ≠
      some c10Old :=
  ⟨rfl, rfl, fun hcon => Option.noConfusion hcon⟩

/-- The stage loop runs every stage whatever the per-stage checkpoint
write outcomes are. -/
theorem run_all_saving_executes_all (results : String → PyVal)
    (fos : Nat → FileWriteOutcome) (dbos : Nat → DbWriteOutcome) (sid ts : String)
    (mods : List String) :
    ∀ (i : Nat) (b : CheckpointBackends),
      (run_all_saving results fos dbos sid ts i mods b).1 = mods := by
  induction mods with
  | nil => intro i b; rfl
  | cons m rest ih =>
    intro i b
    simp [run_all_saving, ih]

/-- C10 (amended): save_state swallows every exception from the file write
and the database write and returns normally, and the stage loop proceeds
through every stage regardless; a database failure leaves the previous row
blob and a failure to open the file leaves the previous file, but a dump
failure after the open loses the previous file content (the
counterexample), so only those failure modes keep the prior checkpoint. -/
theorem c10_save_swallows_failures (fo : FileWriteOutcome) (dbo : DbWriteOutcome)
    (b : CheckpointBackends) (c : List (String × PyVal)) (results : String → PyVal)
    (fos : Nat → FileWriteOutcome) (dbos : Nat → DbWriteOutcome) (sid ts : String)
    (i : Nat) (mods : List String) :
    (save_state fo .dbfail b c).rowCheckpoint = b.rowCheckpoint ∧
    (save_state .openFail dbo b c).stateFile = b.stateFile ∧
    (run_all_saving results fos dbos sid ts i mods b).1 = mods := by
  refine ⟨?_, ?_, run_all_saving_executes_all results fos dbos sid ts mods i b⟩
  · cases fo <;> rfl
  · cases dbo <;> rfl

end ReconX
